import Mathlib

/-!
Verification of the request-orchestration core of the LLM chat gateway
worker (source file src/index.ts): chat message assembly, session-memory
window persistence, image-response normalization, routing, best-effort
durable logging, and the file-tree upsert. Each JavaScript handler is
embedded as a total Lean function over explicit models of the request
body, the key-value store blobs, and the external collaborators
(inference service, relational store, network fetch).
-/

/-- A chat message as in src/types.ts: a role (system / user / assistant)
and text content. -/
structure ChatMessage where
  role : String
  content : String
deriving DecidableEq, Repr

/-- The fixed default system prompt (constant SYSTEM_PROMPT of src/index.ts). -/
def SYSTEM_PROMPT : String :=
  "You are a helpful, friendly assistant. Provide concise and accurate responses."

/-- JavaScript Array.prototype.slice(-n): the last n elements of the list
(the whole list when it is shorter than n). -/
def sliceLast (n : Nat) (l : List α) : List α :=
  l.drop (l.length - n)

/-- Lines 141-144 of handleChat: if no message has role "system", one with
the default prompt is unshifted onto the front; otherwise the list is
unchanged. -/
def ensureSystem (messages : List ChatMessage) : List ChatMessage :=
  if messages.any (fun m => m.role == "system") then messages
  else ⟨"system", SYSTEM_PROMPT⟩ :: messages

/-- The stored session-memory blob at key session:<id> as handleChat can
observe it: absent, unparseable JSON (JSON.parse throws), JSON that is not
an array, or a JSON array of messages. -/
inductive MemBlob where
  | absent
  | invalidJson
  | jsonNonArray
  | jsonArray (msgs : List ChatMessage)
deriving DecidableEq, Repr

/-- Lines 146-157 of handleChat: the memory messages actually pushed onto
the request; a missing blob, a parse failure (caught) or a non-array value
(Array.isArray check) all contribute nothing. -/
def loadMem : MemBlob → List ChatMessage
  | .jsonArray msgs => msgs
  | _ => []

/-- The messages field of the chat request body before the line-136
default (body.messages or empty) is applied: absent, present but falsy
(null, 0, empty string, false), present truthy but not an array, or an
array of messages. -/
inductive MessagesField where
  | absent
  | falsy
  | nonArray
  | arr (msgs : List ChatMessage)
deriving DecidableEq, Repr

/-- Line 136 and the line-139 Array.isArray check: absent or falsy values
default to the empty array; a truthy non-array yields none, which is the
400 path. -/
def coerceMessages : MessagesField → Option (List ChatMessage)
  | .absent => some []
  | .falsy => some []
  | .nonArray => none
  | .arr msgs => some msgs

/-- The raw inference-service response returned by env.AI.run with
returnRawResponse true: an HTTP status and the reply text that the body
stream would assemble to if fully drained. -/
structure AiResponse where
  status : Nat
  replyText : String
deriving DecidableEq, Repr

/-- Observable outcome of one handleChat call: the HTTP status of the
returned response, whether that response is the raw inference-service
response passed through, the message sequence sent to the inference
service (none when it was never called), whether the session-memory read,
the relational-store insert and the memory write were attempted, the
window value passed to the memory put, and the diagnostics emitted on the
console. -/
structure ChatOutcome where
  status : Nat
  isAiResponse : Bool
  sentToAI : Option (List ChatMessage)
  memReadAttempted : Bool
  dbInsertAttempted : Bool
  memPut : Option (List ChatMessage)
  diagnostics : List String
deriving DecidableEq, Repr

/-- Embedding of handleChat (src/index.ts lines 134-188). Parameters model
the collaborators: the stored memory blob for the session key, whether the
relational-store insert succeeds (its failure is caught at lines 174-176),
whether the key-value memory put succeeds (failure caught at lines
182-184), and the inference-service response. The memory blob is read
after the system-prompt check, its contents are pushed onto the END of the
messages array (line 153), and the window written back is
messages.slice(-10) of the assembled array (line 180). The assistant reply
stream is returned to the caller without being read, so replyText never
influences memory. -/
def handleChat (field : MessagesField) (blob : MemBlob) (dbOk kvOk : Bool)
    (ai : AiResponse) : ChatOutcome :=
  match coerceMessages field with
  | none => ⟨400, false, none, false, false, none, []⟩
  | some msgs =>
    let assembled := ensureSystem msgs ++ loadMem blob
    let readDiag := match blob with
      | .invalidJson => ["session memory read failed"]
      | _ => []
    let dbDiag := if dbOk then [] else ["D1 insert chat failed"]
    let kvDiag := if kvOk then [] else ["KV write session memory failed"]
    ⟨ai.status, true, some assembled, true, true,
      some (sliceLast 10 assembled), readDiag ++ dbDiag ++ kvDiag⟩

/-- Number of system-role messages in a list. -/
def sysCount (l : List ChatMessage) : Nat :=
  l.countP (fun m => m.role == "system")

/-- Claim C1 (counterexample): with a caller-supplied sequence containing
no system message but a stored memory window that does contain one (as any
window saved by a previous short conversation does, since the saved window
is slice(-10) of an array whose head is the system prompt), the sequence
passed to the inference service contains two system messages, not exactly
one. -/
theorem C1_counterexample :
    sysCount ((handleChat (.arr [⟨"user", "hi"⟩])
      (.jsonArray [⟨"system", SYSTEM_PROMPT⟩, ⟨"user", "x"⟩])
      true true ⟨200, "R"⟩).sentToAI.getD []) = 2 := by
  decide

/-- Claim C1 (amended): if the caller-supplied messages contain no system
message, one with the fixed default prompt is prepended at index 0, and if
they already contain one nothing is added; in both cases the relative
order of all other messages is preserved and the loaded memory window is
appended at the end. The sequence sent to the inference service therefore
contains exactly one system message, at index 0, only under the additional
hypothesis that the loaded memory window itself contains no system
message. -/
theorem C1_amended_thm (msgs : List ChatMessage) (blob : MemBlob)
    (dbOk kvOk : Bool) (ai : AiResponse) :
    (msgs.any (fun m => m.role == "system") = false →
      (handleChat (.arr msgs) blob dbOk kvOk ai).sentToAI =
        some (⟨"system", SYSTEM_PROMPT⟩ :: (msgs ++ loadMem blob)) ∧
      ((loadMem blob).any (fun m => m.role == "system") = false →
        sysCount ((handleChat (.arr msgs) blob dbOk kvOk ai).sentToAI.getD []) = 1)) ∧
    (msgs.any (fun m => m.role == "system") = true →
      (handleChat (.arr msgs) blob dbOk kvOk ai).sentToAI =
        some (msgs ++ loadMem blob)) := by
  constructor
  · intro hnone
    constructor
    · simp [handleChat, coerceMessages, ensureSystem, hnone]
    · intro hmem
      have h1 : msgs.countP (fun m => m.role == "system") = 0 := by
        rw [List.countP_eq_zero]
        intro a ha
        simpa using (List.any_eq_false.mp hnone) a ha
      have h2 : (loadMem blob).countP (fun m => m.role == "system") = 0 := by
        rw [List.countP_eq_zero]
        intro a ha
        simpa using (List.any_eq_false.mp hmem) a ha
      simp [handleChat, coerceMessages, ensureSystem, hnone, sysCount,
        List.countP_cons, List.countP_append, h1, h2]
  · intro hsome
    simp [handleChat, coerceMessages, ensureSystem, hsome]

/-- Witness for C1_amended_thm at a concrete input: a caller sequence with
one user message, an empty memory blob. -/
theorem C1_amended_witness :
    (handleChat (.arr [⟨"user", "hi"⟩]) .absent true true ⟨200, "R"⟩).sentToAI =
      some (⟨"system", SYSTEM_PROMPT⟩ :: ([⟨"user", "hi"⟩] ++ loadMem .absent)) ∧
    sysCount ((handleChat (.arr [⟨"user", "hi"⟩]) .absent true true
      ⟨200, "R"⟩).sentToAI.getD []) = 1 := by
  have h := C1_amended_thm [⟨"user", "hi"⟩] .absent true true ⟨200, "R"⟩
  exact ⟨(h.1 (by decide)).1, (h.1 (by decide)).2 (by decide)⟩

/-- A stored window of ten messages, as left by earlier turns of a session. -/
def staleMem : List ChatMessage :=
  [⟨"user", "m1"⟩, ⟨"assistant", "m2"⟩, ⟨"user", "m3"⟩, ⟨"assistant", "m4"⟩,
   ⟨"user", "m5"⟩, ⟨"assistant", "m6"⟩, ⟨"user", "m7"⟩, ⟨"assistant", "m8"⟩,
   ⟨"user", "m9"⟩, ⟨"assistant", "m10"⟩]

/-- Claim C2 (code evaluation at the failing input): when the stored
window already holds ten messages and the caller sends one new user turn,
the window written at the end of the call is the OLD ten messages
unchanged — the new turn is not retained, so the stored window is not the
most recent ten messages of the conversation. The memory is pushed onto
the end of the messages array (line 153) although the adjacent comment
says it is appended to the front so the model sees it after the system
prompt, and slice(-10) then keeps exactly the old memory. -/
theorem C2_code_eval :
    (handleChat (.arr [⟨"user", "new"⟩]) (.jsonArray staleMem)
      true true ⟨200, "R"⟩).memPut = some staleMem ∧
    ((handleChat (.arr [⟨"user", "new"⟩]) (.jsonArray staleMem)
      true true ⟨200, "R"⟩).memPut.getD []).all
        (fun m => m.content != "new") = true := by
  constructor
  · decide
  · decide

/-- The length of a slice(-n) window never exceeds n. -/
theorem sliceLast_length_le (n : Nat) (l : List α) : (sliceLast n l).length ≤ n := by
  simp [sliceLast]
  omega

/-- Claim C4 (counterexample): a chat request whose body has no messages
field at all is NOT rejected with 400 — line 136 defaults the missing
field to the empty array, the Array.isArray check passes, and the handler
proceeds to call the inference service (with just the synthesized system
prompt). -/
theorem C4_counterexample :
    (handleChat .absent .absent true true ⟨200, "R"⟩).status = 200 ∧
    (handleChat .absent .absent true true ⟨200, "R"⟩).sentToAI =
      some [⟨"system", SYSTEM_PROMPT⟩] := by
  constructor
  · decide
  · decide

/-- Claim C4 (amended): the 400 fail-fast path fires only when the
messages field is present, truthy and not an array; in that case the
handler returns status 400 with no inference-service call, no memory read,
no store insert and no memory write. A missing or falsy messages field is
instead defaulted to the empty array and the request proceeds exactly as
if the caller had sent messages equal to the empty array. -/
theorem C4_amended_thm (blob : MemBlob) (dbOk kvOk : Bool) (ai : AiResponse) :
    handleChat .nonArray blob dbOk kvOk ai =
      ⟨400, false, none, false, false, none, []⟩ ∧
    handleChat .absent blob dbOk kvOk ai =
      handleChat (.arr []) blob dbOk kvOk ai ∧
    handleChat .falsy blob dbOk kvOk ai =
      handleChat (.arr []) blob dbOk kvOk ai := by
  refine ⟨?_, ?_, ?_⟩ <;> simp [handleChat, coerceMessages]

/-- Claim C6: when the relational-store insert of the chat log record
fails, the handler still returns the raw inference-service response with
its status unchanged, the same message sequence was sent to the service,
and the same memory window is written; the failure is visible only as the
diagnostic line, which is absent when the insert succeeds. -/
theorem C6_thm (msgs : List ChatMessage) (blob : MemBlob) (kvOk : Bool)
    (ai : AiResponse) :
    (handleChat (.arr msgs) blob false kvOk ai).status = ai.status ∧
    (handleChat (.arr msgs) blob false kvOk ai).status =
      (handleChat (.arr msgs) blob true kvOk ai).status ∧
    (handleChat (.arr msgs) blob false kvOk ai).isAiResponse = true ∧
    (handleChat (.arr msgs) blob false kvOk ai).sentToAI =
      (handleChat (.arr msgs) blob true kvOk ai).sentToAI ∧
    (handleChat (.arr msgs) blob false kvOk ai).memPut =
      (handleChat (.arr msgs) blob true kvOk ai).memPut ∧
    "D1 insert chat failed" ∈ (handleChat (.arr msgs) blob false kvOk ai).diagnostics ∧
    "D1 insert chat failed" ∉ (handleChat (.arr msgs) blob true kvOk ai).diagnostics := by
  cases blob <;> cases kvOk <;>
    simp [handleChat, coerceMessages]

/-- Claim C8 (counterexample): for a streamed chat reply with assembled
text R, the window stored at the end of the call contains no assistant
message at all — the assistant's contribution to memory is absent, not the
fully assembled reply text. -/
theorem C8_counterexample :
    (handleChat (.arr [⟨"user", "hi"⟩]) .absent true true ⟨200, "R"⟩).memPut =
      some [⟨"system", SYSTEM_PROMPT⟩, ⟨"user", "hi"⟩] ∧
    ((handleChat (.arr [⟨"user", "hi"⟩]) .absent true true
      ⟨200, "R"⟩).memPut.getD []).all (fun m => m.role != "assistant") = true := by
  constructor
  · decide
  · decide

/-- Claim C8 (amended): the session-memory window is written without ever
consuming the reply stream: the stored window is slice(-10) of the
assembled request-side messages (system prompt, caller messages, loaded
memory) and is entirely independent of the reply text — the assistant's
reply is never contributed to the window, fully assembled or otherwise. -/
theorem C8_amended_thm (msgs : List ChatMessage) (blob : MemBlob)
    (dbOk kvOk : Bool) (st : Nat) (r1 r2 : String) :
    (handleChat (.arr msgs) blob dbOk kvOk ⟨st, r1⟩).memPut =
      some (sliceLast 10 (ensureSystem msgs ++ loadMem blob)) ∧
    handleChat (.arr msgs) blob dbOk kvOk ⟨st, r1⟩ =
      handleChat (.arr msgs) blob dbOk kvOk ⟨st, r2⟩ := by
  constructor
  · simp [handleChat, coerceMessages]
  · simp [handleChat, coerceMessages]

/-- Claim C10: when the stored memory blob is unparseable JSON or parses
to a non-array value, the chat operation proceeds exactly as if no memory
were stored — same response status, same messages sent to the service,
same window written — and the value written back over the corrupt blob is
a well-formed message array of at most 10 entries. -/
theorem C10_thm (msgs : List ChatMessage) (dbOk kvOk : Bool)
    (ai : AiResponse) (blob : MemBlob)
    (h : blob = .invalidJson ∨ blob = .jsonNonArray) :
    (handleChat (.arr msgs) blob dbOk kvOk ai).status = ai.status ∧
    (handleChat (.arr msgs) blob dbOk kvOk ai).sentToAI =
      (handleChat (.arr msgs) .absent dbOk kvOk ai).sentToAI ∧
    (handleChat (.arr msgs) blob dbOk kvOk ai).memPut =
      (handleChat (.arr msgs) .absent dbOk kvOk ai).memPut ∧
    ∃ w, (handleChat (.arr msgs) blob dbOk kvOk ai).memPut = some w ∧
      w.length ≤ 10 := by
  rcases h with h | h <;> subst h <;>
    exact ⟨rfl, rfl, rfl, sliceLast 10 (ensureSystem msgs ++ []),
      rfl, sliceLast_length_le 10 _⟩

/-- Witness for C10_thm at a concrete input: one user message and an
unparseable stored blob. -/
theorem C10_witness :
    (handleChat (.arr [⟨"user", "hi"⟩]) .invalidJson true true
      ⟨200, "R"⟩).status = 200 ∧
    (handleChat (.arr [⟨"user", "hi"⟩]) .invalidJson true true ⟨200, "R"⟩).sentToAI =
      (handleChat (.arr [⟨"user", "hi"⟩]) .absent true true ⟨200, "R"⟩).sentToAI ∧
    (handleChat (.arr [⟨"user", "hi"⟩]) .invalidJson true true ⟨200, "R"⟩).memPut =
      (handleChat (.arr [⟨"user", "hi"⟩]) .absent true true ⟨200, "R"⟩).memPut ∧
    ∃ w, (handleChat (.arr [⟨"user", "hi"⟩]) .invalidJson true true
      ⟨200, "R"⟩).memPut = some w ∧ w.length ≤ 10 :=
  C10_thm [⟨"user", "hi"⟩] true true ⟨200, "R"⟩ .invalidJson (Or.inl rfl)

/-- One element of an image-result array: optional inline base64 bytes
(field b64_json) and an optional remote URL. -/
structure ImageItem where
  b64_json : Option String
  url : Option String
deriving DecidableEq, Repr

/-- The raw inference-service image payload as handleTextToImage can
observe it: an object with optional data array, images array and url
string field (none for a data or images field that is absent or not an
array), a plain string payload, or anything else (null, number, ...). -/
inductive ImageRaw where
  | obj (data images : Option (List ImageItem)) (url : Option String)
  | str (s : String)
  | other
deriving DecidableEq, Repr

/-- JavaScript truthiness on an optional string: the empty string is
falsy. -/
def truthyStr : Option String → Option String
  | some s => if s == "" then none else some s
  | none => none

/-- The line-223 / 225 shape test: the field is an array whose first
element carries a truthy b64_json. -/
def firstB64 : Option (List ImageItem) → Option String
  | some (item :: _) => truthyStr item.b64_json
  | _ => none

/-- The line-229 shape test: the field is an array whose first element
carries a truthy url. -/
def firstUrl : Option (List ImageItem) → Option String
  | some (item :: _) => truthyStr item.url
  | _ => none

/-- Lines 219-232 of handleTextToImage: the if/else chain that extracts
(b64, urlAvailable) from the raw result, trying data[0].b64_json, then
images[0].b64_json, then a string url field, then data[0].url, in that
order. -/
def extractImage : ImageRaw → Option String × Option String
  | .obj data images url =>
    match firstB64 data with
    | some b => (some b, none)
    | none =>
      match firstB64 images with
      | some b => (some b, none)
      | none =>
        match url with
        | some u => (none, some u)
        | none => (none, firstUrl data)
  | _ => (none, none)

/-- Result of normalization: the base64 bytes if any, and how many network
fetches were attempted. -/
structure NormResult where
  b64 : Option String
  fetchCount : Nat
deriving DecidableEq, Repr

/-- Lines 219-251 of handleTextToImage: extraction, then the best-effort
fetch-and-encode fallback when a truthy URL but no bytes were found
(lines 235-245, the fetch failure is caught), then the plain-string
last resort (lines 248-251). fetchFn models fetch plus base64 encoding of
the body, returning none when the fetch throws; enc models base64 encoding
of a plain string. -/
def normalizeImage (fetchFn : String → Option String) (enc : String → String)
    (raw : ImageRaw) : NormResult :=
  let ex := extractImage raw
  let afterFetch : Option String × Nat :=
    match ex.1, ex.2 with
    | none, some u => if u == "" then (none, 0) else (fetchFn u, 1)
    | b, _ => (b, 0)
  let b2 : Option String :=
    match afterFetch.1, raw with
    | none, .str s => some (enc s)
    | b, _ => b
  ⟨b2, afterFetch.2⟩

/-- Claim C3: the extraction strategies are tried in strict fixed order —
data[0].b64_json first, then images[0].b64_json, then the url string
field, then data[0].url — and the input shaped with data equal to a
one-element array carrying b64_json AAAA normalizes to exactly AAAA with
zero fetches, for every fetch and encoding function. -/
theorem C3_thm :
    (∀ (d i : Option (List ImageItem)) (u : Option String) (b : String),
      firstB64 d = some b → extractImage (.obj d i u) = (some b, none)) ∧
    (∀ (d i : Option (List ImageItem)) (u : Option String) (b : String),
      firstB64 d = none → firstB64 i = some b →
      extractImage (.obj d i u) = (some b, none)) ∧
    (∀ (d i : Option (List ImageItem)) (us : String),
      firstB64 d = none → firstB64 i = none →
      extractImage (.obj d i (some us)) = (none, some us)) ∧
    (∀ (d i : Option (List ImageItem)),
      firstB64 d = none → firstB64 i = none →
      extractImage (.obj d i none) = (none, firstUrl d)) ∧
    (∀ (fetchFn : String → Option String) (enc : String → String),
      normalizeImage fetchFn enc (.obj (some [⟨some "AAAA", none⟩]) none none) =
        ⟨some "AAAA", 0⟩) := by
  refine ⟨?_, ?_, ?_, ?_, ?_⟩
  · intro d i u b h1
    simp [extractImage, h1]
  · intro d i u b h1 h2
    simp [extractImage, h1, h2]
  · intro d i us h1 h2
    simp [extractImage, h1, h2]
  · intro d i h1 h2
    simp [extractImage, h1, h2]
  · intro fetchFn enc
    rfl

/-- Witness for C3_thm: each ordered strategy applied at a concrete
input, plus the concrete AAAA normalization. -/
theorem C3_witness :
    extractImage (.obj (some [⟨some "X", none⟩]) none none) = (some "X", none) ∧
    extractImage (.obj none (some [⟨some "Y", none⟩]) none) = (some "Y", none) ∧
    extractImage (.obj none none (some "u")) = (none, some "u") ∧
    extractImage (.obj (some [⟨none, some "v"⟩]) none none) =
      (none, firstUrl (some [⟨none, some "v"⟩])) ∧
    normalizeImage (fun _ => none) (fun s => s)
      (.obj (some [⟨some "AAAA", none⟩]) none none) = ⟨some "AAAA", 0⟩ := by
  obtain ⟨h1, h2, h3, h4, h5⟩ := C3_thm
  exact ⟨h1 (some [⟨some "X", none⟩]) none none "X" rfl,
    h2 none (some [⟨some "Y", none⟩]) none "Y" rfl rfl,
    h3 none none "u" rfl rfl,
    h4 (some [⟨none, some "v"⟩]) none rfl rfl,
    h5 (fun _ => none) (fun s => s)⟩

/-- JavaScript whitespace test used by String.prototype.trim (the
characters that occur in this code base). -/
def isJsWhitespace (c : Char) : Bool :=
  c == ' ' || c == '\t' || c == '\n' || c == '\r'

/-- JavaScript String.prototype.trim. -/
def jsTrim (s : String) : String :=
  ⟨((s.data.dropWhile isJsWhitespace).reverse.dropWhile isJsWhitespace).reverse⟩

/-- Observable outcome of one handleTextToImage call: HTTP status,
the has_base64 flag of the returned JSON, the number of network fetches,
the bytes written to the key-value store if any, whether the metadata
insert was attempted, and the value bound to the has_b64 column. -/
structure ImageOutcome where
  status : Nat
  has_base64 : Bool
  fetchCount : Nat
  kvPut : Option String
  dbInsertAttempted : Bool
  dbHasB64Column : Option Nat
deriving DecidableEq, Repr

/-- Embedding of handleTextToImage (src/index.ts lines 198-293): validate
the trimmed prompt (400 when empty), call the image model (500 when the
call throws, modeled by aiOk), normalize the result, store the bytes in
the key-value store when present, and attempt the metadata insert with
has_b64 bound to 1 or 0; the response is 200 with has_base64 reflecting
whether bytes were produced. -/
def handleTextToImage (prompt : Option String) (aiOk : Bool) (raw : ImageRaw)
    (fetchFn : String → Option String) (enc : String → String) : ImageOutcome :=
  if jsTrim (prompt.getD "") == "" then ⟨400, false, 0, none, false, none⟩
  else if !aiOk then ⟨500, false, 0, none, false, none⟩
  else
    let norm := normalizeImage fetchFn enc raw
    ⟨200, norm.b64.isSome, norm.fetchCount, norm.b64, true,
      some (if norm.b64.isSome then 1 else 0)⟩

/-- Claim C7: for every raw result that carries only a remote URL and no
inline bytes, exactly one fetch of that URL is attempted; when the fetch
fails, the operation still completes with status 200, has_base64 false,
and the metadata insert (with has_b64 bound to 0) is still attempted —
normalization never turns the fetch failure into an operation failure. -/
theorem C7_thm (prompt : Option String) (raw : ImageRaw) (u : String)
    (fetchFn : String → Option String) (enc : String → String)
    (hp : (jsTrim (prompt.getD "") == "") = false)
    (hx : extractImage raw = (none, some u))
    (hu : (u == "") = false) (hf : fetchFn u = none) :
    (handleTextToImage prompt true raw fetchFn enc).status = 200 ∧
    (handleTextToImage prompt true raw fetchFn enc).has_base64 = false ∧
    (handleTextToImage prompt true raw fetchFn enc).fetchCount = 1 ∧
    (handleTextToImage prompt true raw fetchFn enc).dbInsertAttempted = true ∧
    (handleTextToImage prompt true raw fetchFn enc).dbHasB64Column = some 0 := by
  have hraw : ∀ d i u0, raw = .obj d i u0 →
      normalizeImage fetchFn enc raw = ⟨none, 1⟩ := by
    intro d i u0 he
    subst he
    simp [normalizeImage, hx, hu, hf]
  cases raw with
  | obj d i u0 =>
    have hn := hraw d i u0 rfl
    simp [handleTextToImage, hp, hn]
  | str s =>
    exfalso
    simp [extractImage] at hx
  | other =>
    exfalso
    simp [extractImage] at hx

/-- Witness for C7_thm: a concrete prompt, a result carrying only a URL,
and a fetch function that always fails. -/
theorem C7_witness :
    (handleTextToImage (some "cat") true (.obj none none (some "https://x/y.png"))
      (fun _ => none) (fun s => s)).status = 200 ∧
    (handleTextToImage (some "cat") true (.obj none none (some "https://x/y.png"))
      (fun _ => none) (fun s => s)).has_base64 = false ∧
    (handleTextToImage (some "cat") true (.obj none none (some "https://x/y.png"))
      (fun _ => none) (fun s => s)).fetchCount = 1 ∧
    (handleTextToImage (some "cat") true (.obj none none (some "https://x/y.png"))
      (fun _ => none) (fun s => s)).dbInsertAttempted = true ∧
    (handleTextToImage (some "cat") true (.obj none none (some "https://x/y.png"))
      (fun _ => none) (fun s => s)).dbHasB64Column = some 0 :=
  C7_thm (some "cat") (.obj none none (some "https://x/y.png"))
    "https://x/y.png" (fun _ => none) (fun s => s) rfl rfl rfl rfl

/-- JavaScript String.prototype.startsWith, on the character lists of the
two strings. -/
def strStartsWith (s pre : String) : Bool :=
  pre.data.isPrefixOf s.data

/-- What the fetch entry point (src/index.ts lines 57-121) does with a
request: forward it to static-asset serving, dispatch to a named handler,
or return a literal response. -/
inductive Dispatch where
  | assets
  | handler (h : String)
  | response (status : Nat) (body : String)
deriving DecidableEq, Repr

/-- Embedding of the router in fetch (src/index.ts lines 57-121): the root
path or any path not starting with the API prefix goes to asset serving
regardless of method; each known method+path pair goes to its handler; and
everything else falls through to the literal 404 Not found response at
line 115. -/
def route (method path : String) : Dispatch :=
  if path == "/" || !(strStartsWith path "/api/") then .assets
  else if path == "/api/chat" && method == "POST" then .handler "chat"
  else if path == "/api/text-to-image" && method == "POST" then .handler "textToImage"
  else if path == "/api/embeddings" && method == "POST" then .handler "embeddings"
  else if path == "/api/images" && method == "GET" then .handler "listImages"
  else if strStartsWith path "/api/images/" && method == "GET" then .handler "getImage"
  else if path == "/api/log-build" && method == "POST" then .handler "buildLog"
  else if path == "/api/logs" && method == "GET" then .handler "fetchLogs"
  else if path == "/api/file-tree" && method == "GET" then .handler "getFileTree"
  else if path == "/api/project-file" && method == "POST" then .handler "writeProjectFile"
  else .response 404 "Not found"

/-- The HTTP status carried by a dispatch result, when it is a literal
response. -/
def dispatchStatus : Dispatch → Option Nat
  | .response s _ => some s
  | _ => none

/-- Claim C5 (counterexample): /api/chat is a known route (POST reaches
the chat handler), yet a GET to the same path yields the literal 404
response — not the 405 the claim requires for a known path with the wrong
method. -/
theorem C5_counterexample :
    route "POST" "/api/chat" = .handler "chat" ∧
    route "GET" "/api/chat" = .response 404 "Not found" := by
  constructor
  · rfl
  · rfl

set_option maxHeartbeats 1000000 in
/-- Claim C5 (amended): every path outside the /api/ prefix is dispatched
to static-asset serving unconditionally, regardless of method; within the
prefix, every unmatched method+path pair — whether the path is a known
route with the wrong method or an unrecognized path — yields the single
404 Not found response; no 405 result exists. -/
theorem C5_amended_thm :
    (∀ method path, strStartsWith path "/api/" = false →
      route method path = .assets) ∧
    (∀ method path, dispatchStatus (route method path) = none ∨
      dispatchStatus (route method path) = some 404) := by
  constructor
  · intro method path h
    simp [route, h]
  · intro method path
    unfold route
    split_ifs <;> simp [dispatchStatus]

/-- Witness for C5_amended_thm: a non-API path served as assets, and an
unrecognized API path. -/
theorem C5_amended_witness :
    route "GET" "/foo" = .assets ∧
    (dispatchStatus (route "GET" "/api/nope") = none ∨
      dispatchStatus (route "GET" "/api/nope") = some 404) :=
  ⟨C5_amended_thm.1 "GET" "/foo" rfl, C5_amended_thm.2 "GET" "/api/nope"⟩

/-- One node of the stored file tree (root array), as pushed at line 461:
a path, the final path segment as name, the literal node type "file", and
an update timestamp. -/
structure FileNode where
  path : String
  name : String
  nodeType : String
  updated_at : String
deriving DecidableEq, Repr

/-- The stored file_tree blob as the handlers can observe it: absent,
unparseable JSON, or a parsed tree with its root node array. -/
inductive TreeBlob where
  | absent
  | invalid
  | tree (nodes : List FileNode)
deriving DecidableEq, Repr

/-- JavaScript String.prototype.split on the slash character, on a
character list. -/
def splitSlash : List Char → List (List Char)
  | [] => [[]]
  | c :: rest =>
    match splitSlash rest with
    | [] => [[]]
    | g :: gs => if c == '/' then [] :: g :: gs else (c :: g) :: gs

/-- path.split("/").pop(): the final segment of a slash-separated path. -/
def lastSegment (p : String) : String :=
  ⟨((splitSlash p.data).getLast?).getD []⟩

/-- Lines 455-466 of handleWriteProjectFile: read the stored tree (an
absent blob becomes the empty root), and push a new file node unless some
node with the same path already exists; a parse failure is caught and
leaves the blob untouched. -/
def updateTree (p ts : String) : TreeBlob → TreeBlob
  | .tree nodes =>
    if nodes.any (fun f => f.path == p) then .tree nodes
    else .tree (nodes ++ [⟨p, lastSegment p, "file", ts⟩])
  | .absent => .tree [⟨p, lastSegment p, "file", ts⟩]
  | .invalid => .invalid

/-- The content field of the project-file request body: a string
(possibly empty), missing, or present with a non-string value. -/
inductive ContentField where
  | str (s : String)
  | missing
  | nonString
deriving DecidableEq, Repr

/-- Observable outcome of one handleWriteProjectFile call: HTTP status,
the key/content pair written to the key-value store if any, whether the
edit-log insert was attempted, and the resulting tree blob. -/
structure WriteOutcome where
  status : Nat
  kvFilePut : Option (String × String)
  dbInsertAttempted : Bool
  tree : TreeBlob
deriving DecidableEq, Repr

/-- Embedding of handleWriteProjectFile (src/index.ts lines 433-473):
validate that path is truthy and content is a string (400 otherwise),
write the content under file:<path>, insert the edit log, and update the
tree blob as at lines 455-466. -/
def handleWriteProjectFile (pathF : Option String) (content : ContentField)
    (tb : TreeBlob) (ts : String) : WriteOutcome :=
  let pOk : Option String :=
    match pathF with
    | some p => if p == "" then none else some p
    | none => none
  match pOk, content with
  | some p, .str c => ⟨200, some (p, c), true, updateTree p ts tb⟩
  | _, _ => ⟨400, none, false, tb⟩

/-- Embedding of handleGetFileTree (src/index.ts lines 417-425): the
parsed tree for a stored blob, the empty root object when nothing is
stored, and the caught-parse-failure 500 otherwise. The second component
is the root node array of the returned JSON. -/
def handleGetFileTree : TreeBlob → Nat × Option (List FileNode)
  | .absent => (200, some [])
  | .invalid => (500, none)
  | .tree ns => (200, some ns)

/-- Claim C9: starting from a stored tree with no node for path p, writing
a file at p succeeds and a subsequent file-tree read returns exactly one
node whose path is p; writing the same path a second time also succeeds
and still leaves exactly one node for p — the upsert is idempotent and
creates no duplicate. -/
theorem C9_thm (p c c2 ts ts2 : String) (ns : List FileNode)
    (hp : (p == "") = false)
    (h0 : ns.countP (fun f => f.path == p) = 0) :
    (handleWriteProjectFile (some p) (.str c) (.tree ns) ts).status = 200 ∧
    ((handleGetFileTree
        (handleWriteProjectFile (some p) (.str c) (.tree ns) ts).tree).2.getD
      []).countP (fun f => f.path == p) = 1 ∧
    (handleWriteProjectFile (some p) (.str c2)
      (handleWriteProjectFile (some p) (.str c) (.tree ns) ts).tree ts2).status = 200 ∧
    ((handleGetFileTree (handleWriteProjectFile (some p) (.str c2)
        (handleWriteProjectFile (some p) (.str c) (.tree ns) ts).tree ts2).tree).2.getD
      []).countP (fun f => f.path == p) = 1 := by
  have hany : ns.any (fun f => f.path == p) = false := by
    rw [List.any_eq_false]
    intro x hx
    simpa using List.countP_eq_zero.mp h0 x hx
  have hw1 : handleWriteProjectFile (some p) (.str c) (.tree ns) ts =
      ⟨200, some (p, c), true, .tree (ns ++ [⟨p, lastSegment p, "file", ts⟩])⟩ := by
    simp [handleWriteProjectFile, updateTree, hp, hany]
  have hmem : (ns ++ [(⟨p, lastSegment p, "file", ts⟩ : FileNode)]).any
      (fun f => f.path == p) = true := by
    simp
  have hw2 : handleWriteProjectFile (some p) (.str c2)
      (.tree (ns ++ [⟨p, lastSegment p, "file", ts⟩])) ts2 =
      ⟨200, some (p, c2), true, .tree (ns ++ [⟨p, lastSegment p, "file", ts⟩])⟩ := by
    simp [handleWriteProjectFile, updateTree, hp, hmem]
  refine ⟨by rw [hw1], ?_, ?_, ?_⟩
  · rw [hw1]
    simp [handleGetFileTree, List.countP_append, h0, List.countP_cons]
  · rw [hw1, hw2]
  · rw [hw1, hw2]
    simp [handleGetFileTree, List.countP_append, h0, List.countP_cons]

/-- Witness for C9_thm: writing a/b.txt with content hello twice into an
empty tree. -/
theorem C9_witness :
    (handleWriteProjectFile (some "a/b.txt") (.str "hello") (.tree []) "t1").status = 200 ∧
    ((handleGetFileTree (handleWriteProjectFile (some "a/b.txt") (.str "hello")
        (.tree []) "t1").tree).2.getD []).countP (fun f => f.path == "a/b.txt") = 1 ∧
    (handleWriteProjectFile (some "a/b.txt") (.str "hello")
      (handleWriteProjectFile (some "a/b.txt") (.str "hello")
        (.tree []) "t1").tree "t2").status = 200 ∧
    ((handleGetFileTree (handleWriteProjectFile (some "a/b.txt") (.str "hello")
        (handleWriteProjectFile (some "a/b.txt") (.str "hello")
          (.tree []) "t1").tree "t2").tree).2.getD
      []).countP (fun f => f.path == "a/b.txt") = 1 :=
  C9_thm "a/b.txt" "hello" "hello" "t1" "t2" [] rfl rfl
